import Mathlib

set_option maxRecDepth 8000

/-!
Verification of the Surfshark server-list updater
(`internal/updater/surfshark.go`).

The Go code is shallowly embedded: Go maps become association lists
(iterated in list order, one order of the nondeterministic Go map
iteration), IP addresses become natural numbers, and the external
collaborators that are not part of the source under verification
(`fetchAndExtractFiles`, `extractHostFromOVPN`, the DNS lookup) are
parameters.  `parallelResolve` and `uniqueSortedIPs` live in other files
of the repository and are modelled from the specification.
-/

/-- A Surfshark server: a human-readable region name together with the
resolved IP addresses of the host (`models.SurfsharkServer`). -/
structure SurfsharkServer where
  Region : String
  IPs : List Nat
deriving DecidableEq, Repr

/-- Result of the external per-file parser `extractHostFromOVPN`:
a host, an advisory warning (empty string when absent) and an optional
error (`nil` in Go becomes `none`). -/
structure ParseOut where
  host : String
  warning : String
  err : Option String
deriving DecidableEq, Repr

/-- Result triple of `parallelResolve`: the host-to-IPs mapping, the
warnings, and the optional error, mirroring the Go return values. -/
structure ResolveOut where
  hostToIPs : List (String × List Nat)
  warnings : List String
  err : Option String
deriving DecidableEq, Repr

/-- The fixed Surfshark domain suffix used by the reconciliation. -/
def surfSuffix : String := ".prod.surfshark.com"

/-- `strings.HasSuffix`, on the character lists underlying the strings. -/
def strEndsWith (s suffix : String) : Bool :=
  List.isSuffixOf suffix.data s.data

/-- `strings.TrimSuffix`: drop one copy of `suffix` from the end of `s`
when present, otherwise return `s` unchanged. -/
def trimSuffix (s suffix : String) : String :=
  if strEndsWith s suffix then ⟨s.data.take (s.data.length - suffix.data.length)⟩ else s

/-- Lookup in a Go map modelled as an association list. -/
def mlookup : List (String × String) → String → Option String
  | [], _ => none
  | p :: rest, k => if p.1 = k then some p.2 else mlookup rest k

/-- `delete(m, k)` on a Go map modelled as an association list. -/
def mdelete (m : List (String × String)) (k : String) : List (String × String) :=
  m.filter (fun p => p.1 ≠ k)

/-- Keys of an association list. -/
def keysOf (m : List (String × String)) : List String :=
  m.map (fun p => p.1)

/-- Values of an association list. -/
def valuesOf (m : List (String × String)) : List String :=
  m.map (fun p => p.2)

/-- Modelled from the spec: `uniqueSortedIPs` is defined in another file
of the repository; per the spec a server's recorded IP set equals the
sorted list of distinct addresses. -/
def uniqueSortedIPs (ips : List Nat) : List Nat :=
  List.insertionSort (fun a b => a ≤ b) ips.dedup

/-- The warning emitted for a host that resolved to no IP address
(`fmt.Sprintf("no IP address found for host %q", host)`). -/
def noIPWarning (host : String) : String :=
  "no IP address found for host \"" ++ host ++ "\""

/-- The warning emitted for a subdomain missing from the region table
(`fmt.Sprintf("subdomain %q not found in Surfshark mapping", subdomain)`). -/
def subdomainWarning (subdomain : String) : String :=
  "subdomain \"" ++ subdomain ++ "\" not found in Surfshark mapping"

/-- Modelled from the spec: `parallelResolve` is defined in another file
of the repository.  Per the spec it maps each input hostname to its
resolved IP set (possibly empty when the host never resolved within the
retry budget); in strict mode (`failOnErr = true`) any unresolvable host
makes the whole call fail with a resolution-exhaustion error; in
best-effort mode unresolvable hosts each yield one warning; a cancelled
call returns a cancellation error and no partial result.  The final
per-host outcome of the retried concurrent resolution is abstracted into
the function `resolve`, and cancellation into the flag `canceled`. -/
def parallelResolve (resolve : String → List Nat) (canceled : Bool)
    (hosts : List String) (failOnErr : Bool) : ResolveOut :=
  if canceled then ⟨[], [], some "context canceled"⟩
  else
    let uh := hosts.dedup
    if failOnErr then
      if uh.any (fun h => (resolve h).isEmpty) then ⟨[], [], some "resolution exhausted"⟩
      else ⟨uh.map (fun h => (h, resolve h)), [], none⟩
    else
      ⟨uh.map (fun h => (h, resolve h)),
       (uh.filter (fun h => (resolve h).isEmpty)).map noIPWarning, none⟩

/-- The static subdomain-code to region-name table
(`surfsharkSubdomainToRegion`), in source order. -/
def surfsharkSubdomainToRegion : List (String × String) :=
  [("ae-dub", "United Arab Emirates"),
   ("al-tia", "Albania"),
   ("at-vie", "Austria"),
   ("au-adl", "Australia Adelaide"),
   ("au-bne", "Australia Brisbane"),
   ("au-mel", "Australia Melbourne"),
   ("au-per", "Australia Perth"),
   ("au-syd", "Australia Sydney"),
   ("au-us", "Australia US"),
   ("az-bak", "Azerbaijan"),
   ("ba-sjj", "Bosnia and Herzegovina"),
   ("be-bru", "Belgium"),
   ("bg-sof", "Bulgaria"),
   ("br-sao", "Brazil"),
   ("ca-mon", "Canada Montreal"),
   ("ca-tor", "Canada Toronto"),
   ("ca-us", "Canada US"),
   ("ca-van", "Canada Vancouver"),
   ("ch-zur", "Switzerland"),
   ("cl-san", "Chile"),
   ("co-bog", "Colombia"),
   ("cr-sjn", "Costa Rica"),
   ("cy-nic", "Cyprus"),
   ("cz-prg", "Czech Republic"),
   ("de-ber", "Germany Berlin"),
   ("de-fra", "Germany Frankfurt am Main"),
   ("de-fra-st001", "Germany Frankfurt am Main st001"),
   ("de-fra-st002", "Germany Frankfurt am Main st002"),
   ("de-fra-st003", "Germany Frankfurt am Main st003"),
   ("de-fra-st004", "Germany Frankfurt am Main st004"),
   ("de-fra-st005", "Germany Frankfurt am Main st005"),
   ("de-muc", "Germany Munich"),
   ("de-nue", "Germany Nuremberg"),
   ("de-sg", "Germany Singapour"),
   ("de-uk", "Germany UK"),
   ("dk-cph", "Denmark"),
   ("ee-tll", "Estonia"),
   ("es-bcn", "Spain Barcelona"),
   ("es-mad", "Spain Madrid"),
   ("es-vlc", "Spain Valencia"),
   ("fi-hel", "Finland"),
   ("fr-bod", "France Bordeaux"),
   ("fr-mrs", "France Marseilles"),
   ("fr-par", "France Paris"),
   ("fr-se", "France Sweden"),
   ("gr-ath", "Greece"),
   ("hk-hkg", "Hong Kong"),
   ("hr-zag", "Croatia"),
   ("hu-bud", "Hungary"),
   ("id-jak", "Indonesia"),
   ("ie-dub", "Ireland"),
   ("il-tlv", "Israel"),
   ("in-chn", "India Chennai"),
   ("in-idr", "India Indore"),
   ("in-mum", "India Mumbai"),
   ("in-uk", "India UK"),
   ("is-rkv", "Iceland"),
   ("it-mil", "Italy Milan"),
   ("it-rom", "Italy Rome"),
   ("jp-tok", "Japan Tokyo"),
   ("jp-tok-st001", "Japan Tokyo st001"),
   ("jp-tok-st002", "Japan Tokyo st002"),
   ("jp-tok-st003", "Japan Tokyo st003"),
   ("jp-tok-st004", "Japan Tokyo st004"),
   ("jp-tok-st005", "Japan Tokyo st005"),
   ("jp-tok-st006", "Japan Tokyo st006"),
   ("jp-tok-st007", "Japan Tokyo st007"),
   ("jp-tok-st008", "Japan Tokyo st008"),
   ("jp-tok-st009", "Japan Tokyo st009"),
   ("jp-tok-st010", "Japan Tokyo st010"),
   ("jp-tok-st011", "Japan Tokyo st011"),
   ("jp-tok-st012", "Japan Tokyo st012"),
   ("jp-tok-st013", "Japan Tokyo st013"),
   ("kr-seo", "Korea"),
   ("kz-ura", "Kazakhstan"),
   ("lu-ste", "Luxembourg"),
   ("lv-rig", "Latvia"),
   ("ly-tip", "Libya"),
   ("md-chi", "Moldova"),
   ("mk-skp", "North Macedonia"),
   ("my-kul", "Malaysia"),
   ("ng-lag", "Nigeria"),
   ("nl-ams", "Netherlands Amsterdam"),
   ("nl-ams-st001", "Netherlands Amsterdam st001"),
   ("nl-us", "Netherlands US"),
   ("no-osl", "Norway"),
   ("nz-akl", "New Zealand"),
   ("ph-mnl", "Philippines"),
   ("pl-gdn", "Poland Gdansk"),
   ("pl-waw", "Poland Warsaw"),
   ("pt-lis", "Portugal Lisbon"),
   ("pt-lou", "Portugal Loule"),
   ("pt-opo", "Portugal Porto"),
   ("py-asu", "Paraguay"),
   ("ro-buc", "Romania"),
   ("rs-beg", "Serbia"),
   ("ru-mos", "Russia Moscow"),
   ("ru-spt", "Russia St. Petersburg"),
   ("se-sto", "Sweden"),
   ("sg-hk", "Singapore Hong Kong"),
   ("sg-nl", "Singapore Netherlands"),
   ("sg-sng", "Singapore"),
   ("sg-in", "Singapore in"),
   ("sg-sng-st001", "Singapore st001"),
   ("sg-sng-st002", "Singapore st002"),
   ("sg-sng-st003", "Singapore st003"),
   ("sg-sng-st004", "Singapore st004"),
   ("sg-sng-mp001", "Singapore mp001"),
   ("si-lju", "Slovenia"),
   ("sk-bts", "Slovekia"),
   ("th-bkk", "Thailand"),
   ("tr-bur", "Turkey"),
   ("tw-tai", "Taiwan"),
   ("ua-iev", "Ukraine"),
   ("uk-de", "UK Germany"),
   ("uk-fr", "UK France"),
   ("uk-gla", "UK Glasgow"),
   ("uk-lon", "UK London"),
   ("uk-lon-mp001", "UK London mp001"),
   ("uk-lon-st001", "UK London st001"),
   ("uk-lon-st002", "UK London st002"),
   ("uk-lon-st003", "UK London st003"),
   ("uk-lon-st004", "UK London st004"),
   ("uk-lon-st005", "UK London st005"),
   ("uk-man", "UK Manchester"),
   ("us-atl", "US Atlanta"),
   ("us-bdn", "US Bend"),
   ("us-bos", "US Boston"),
   ("us-buf", "US Buffalo"),
   ("us-chi", "US Chicago"),
   ("us-clt", "US Charlotte"),
   ("us-dal", "US Dallas"),
   ("us-den", "US Denver"),
   ("us-dtw", "US Gahanna"),
   ("us-hou", "US Houston"),
   ("us-kan", "US Kansas City"),
   ("us-las", "US Las Vegas"),
   ("us-lax", "US Los Angeles"),
   ("us-ltm", "US Latham"),
   ("us-mia", "US Miami"),
   ("us-mnz", "US Maryland"),
   ("us-nl", "US Netherlands"),
   ("us-nyc", "US New York City"),
   ("us-nyc-mp001", "US New York City mp001"),
   ("us-nyc-st001", "US New York City st001"),
   ("us-nyc-st002", "US New York City st002"),
   ("us-nyc-st003", "US New York City st003"),
   ("us-nyc-st004", "US New York City st004"),
   ("us-nyc-st005", "US New York City st005"),
   ("us-orl", "US Orlando"),
   ("us-phx", "US Phoenix"),
   ("us-pt", "US Portugal"),
   ("us-sea", "US Seatle"),
   ("us-sfo", "US San Francisco"),
   ("us-slc", "US Salt Lake City"),
   ("us-stl", "US Saint Louis"),
   ("us-tpa", "US Tampa"),
   ("vn-hcm", "Vietnam"),
   ("za-jnb", "South Africa"),
   ("ar-bua", "Argentina Buenos Aires"),
   ("tr-ist", "Turkey Istanbul"),
   ("mx-mex", "Mexico City Mexico"),
   ("ca-tor-mp001", "Canada Toronto mp001"),
   ("de-fra-mp001", "Germany Frankfurt mp001"),
   ("nl-ams-mp001", "Netherlands Amsterdam mp001"),
   ("us-sfo-mp001", "US San Francisco mp001")]

/-- The host-extraction loop of `findSurfsharkServersFromZip`
(lines 105-120): iterate over the archive contents, skip `_tcp.ovpn`
files, keep per-file warnings, downgrade parse errors to warnings tagged
with the file name, and collect the extracted hosts.  Returns
`(hosts, warnings)`. -/
def extractZip (extractHostFromOVPN : String → ParseOut) :
    List (String × String) → List String × List String
  | [] => ([], [])
  | (fileName, content) :: rest =>
    if strEndsWith fileName "_tcp.ovpn" then extractZip extractHostFromOVPN rest
    else
      let p := extractHostFromOVPN content
      let r := extractZip extractHostFromOVPN rest
      match p.err with
      | some e =>
        (r.1, (if p.warning.length > 0 then [p.warning] else []) ++ (e ++ " in " ++ fileName) :: r.2)
      | none =>
        (p.host :: r.1, (if p.warning.length > 0 then [p.warning] else []) ++ r.2)

/-- The pass-1 reconciliation loop of `findSurfsharkServersFromZip`
(lines 130-150): for each resolved host, skip it with a warning when its
IP set is empty; otherwise strip the fixed suffix, look the subdomain up
in the working table copy, delete it on a match, and fall back to the
bare subdomain (plus a warning) on a miss.  Returns the updated working
table, the servers and the warnings, in iteration order. -/
def reconcileHosts (mapping : List (String × String)) :
    List (String × List Nat) → List (String × String) × List SurfsharkServer × List String
  | [] => (mapping, [], [])
  | (host, IPs) :: rest =>
    if IPs.isEmpty then
      let r := reconcileHosts mapping rest
      (r.1, r.2.1, noIPWarning host :: r.2.2)
    else
      match mlookup mapping (trimSuffix host surfSuffix) with
      | some region =>
        let r := reconcileHosts (mdelete mapping (trimSuffix host surfSuffix)) rest
        (r.1, ⟨region, uniqueSortedIPs IPs⟩ :: r.2.1, r.2.2)
      | none =>
        let r := reconcileHosts mapping rest
        (r.1, ⟨trimSuffix host surfSuffix, uniqueSortedIPs IPs⟩ :: r.2.1,
         subdomainWarning (trimSuffix host surfSuffix) :: r.2.2)

/-- `getRemainingServers` (lines 163-185): synthesize a hostname for
every entry left in the working table, resolve the batch in best-effort
mode (the returned error is discarded, as in the source), and emit one
server per entry of the resulting mapping, with the region looked up in
the table. -/
def getRemainingServers (resolve : String → List Nat) (canceled : Bool)
    (mapping : List (String × String)) : List SurfsharkServer × List String :=
  let hosts := mapping.map (fun p => p.1 ++ surfSuffix)
  let r := parallelResolve resolve canceled hosts false
  (r.hostToIPs.map (fun p =>
      ⟨(mlookup mapping (trimSuffix p.1 surfSuffix)).getD "", uniqueSortedIPs p.2⟩),
   r.warnings)

/-- Lexicographic comparison of character lists by code point,
modelling Go's built-in string comparison (byte-wise lexicographic,
which agrees with code-point order on the ASCII data involved). -/
def lexLeB : List Char → List Char → Bool
  | [], _ => true
  | _ :: _, [] => false
  | a :: as, b :: bs =>
    if a.toNat < b.toNat then true
    else if a.toNat = b.toNat then lexLeB as bs
    else false

/-- Go's `s <= t` on strings. -/
def strLe (s t : String) : Prop := lexLeB s.data t.data = true

/-- The ordering used by the final `sort.Slice` call: non-decreasing
region name. -/
def regionLE (a b : SurfsharkServer) : Prop := strLe a.Region b.Region

instance : DecidableRel regionLE :=
  fun a b => (inferInstance : Decidable (lexLeB a.Region.data b.Region.data = true))

lemma lexLeB_total : ∀ a b : List Char, lexLeB a b = true ∨ lexLeB b a = true
  | [], _ => Or.inl rfl
  | _ :: _, [] => Or.inr rfl
  | a :: as, b :: bs => by
    rcases Nat.lt_trichotomy a.toNat b.toNat with h | h | h
    · exact Or.inl (by simp [lexLeB, h])
    · rcases lexLeB_total as bs with ih | ih
      · exact Or.inl (by simp [lexLeB, h, Nat.lt_irrefl, ih])
      · exact Or.inr (by simp [lexLeB, h.symm, Nat.lt_irrefl, ih])
    · exact Or.inr (by simp [lexLeB, h])

lemma lexLeB_cons_iff (a b : Char) (as bs : List Char) :
    lexLeB (a :: as) (b :: bs) = true ↔
      a.toNat < b.toNat ∨ (a.toNat = b.toNat ∧ lexLeB as bs = true) := by
  by_cases h1 : a.toNat < b.toNat
  · simp [lexLeB, h1]
  · by_cases h2 : a.toNat = b.toNat <;> simp [lexLeB, h1, h2]

lemma lexLeB_trans : ∀ a b c : List Char,
    lexLeB a b = true → lexLeB b c = true → lexLeB a c = true
  | [], _, _ => by intro _ _; rfl
  | _ :: _, [], _ => by intro h _; simp [lexLeB] at h
  | _ :: _, _ :: _, [] => by intro _ h; simp [lexLeB] at h
  | a :: as, b :: bs, c :: cs => by
    intro h1 h2
    rw [lexLeB_cons_iff] at h1 h2 ⊢
    rcases h1 with h1 | ⟨h1e, h1r⟩
    · rcases h2 with h2 | ⟨h2e, _⟩
      · exact Or.inl (Nat.lt_trans h1 h2)
      · exact Or.inl (h2e ▸ h1)
    · rcases h2 with h2 | ⟨h2e, h2r⟩
      · exact Or.inl (h1e ▸ h2)
      · exact Or.inr ⟨h1e.trans h2e, lexLeB_trans as bs cs h1r h2r⟩

instance : IsTotal SurfsharkServer regionLE :=
  ⟨fun a b => lexLeB_total a.Region.data b.Region.data⟩

instance : IsTrans SurfsharkServer regionLE :=
  ⟨fun _ _ _ hab hbc => lexLeB_trans _ _ _ hab hbc⟩

/-- `findSurfsharkServersFromZip` (lines 97-161).  The archive fetch is
abstracted into its outcome `fetched`; `canceled1` and `canceled2` state
whether the cancellation signal is observed during the strict pass and
the best-effort pass.  Returns `(servers, warnings, err)`. -/
def findSurfsharkServersFromZip (fetched : Except String (List (String × String)))
    (extractHostFromOVPN : String → ParseOut) (resolve : String → List Nat)
    (canceled1 canceled2 : Bool) :
    List SurfsharkServer × List String × Option String :=
  match fetched with
  | .error e => ([], [], some e)
  | .ok contents =>
    let ex := extractZip extractHostFromOVPN contents
    let r := parallelResolve resolve canceled1 ex.1 true
    match r.err with
    | some e => ([], ex.2, some e)
    | none =>
      let rec1 := reconcileHosts surfsharkSubdomainToRegion r.hostToIPs
      let rem := getRemainingServers resolve canceled2 rec1.1
      (List.insertionSort regionLE (rec1.2.1 ++ rem.1),
       ex.2 ++ rec1.2.2 ++ rem.2, none)

/-- Modelled from the spec: `models.SurfsharkServer.String()` is defined
in another file of the repository; only the fact that some textual
rendering is printed matters here. -/
def serverString (s : SurfsharkServer) : String :=
  s.Region ++ ": " ++ toString s.IPs

/-- `stringifySurfsharkServers` (lines 187-196). -/
def stringifySurfsharkServers (servers : List SurfsharkServer) : String :=
  "func SurfsharkServers() []models.SurfsharkServer \x7b\n"
    ++ "\treturn []models.SurfsharkServer\x7b\n"
    ++ String.join (servers.map (fun s => "\t\t" ++ serverString s ++ ",\n"))
    ++ "\t\x7d\n" ++ "\x7d"

/-- The stored Surfshark record (`u.servers.Surfshark`). -/
structure SurfsharkRecord where
  Timestamp : Int
  Servers : List SurfsharkServer
deriving DecidableEq

/-- The observable updater state touched by `updateSurfshark`: the
stored record, the warnings logged so far and the lines printed so
far. -/
structure UpdaterState where
  surfshark : SurfsharkRecord
  logged : List String
  printed : List String
deriving DecidableEq

/-- `updateSurfshark` (lines 15-31): run the zip pipeline, log every
warning when the CLI option is set, abort (wrapping the error) before
touching the stored record when the pipeline failed, otherwise print
when the Stdout option is set and store the servers with the current
timestamp. -/
def updateSurfshark (cli stdoutOpt : Bool) (now : Int)
    (fetched : Except String (List (String × String)))
    (extractHostFromOVPN : String → ParseOut) (resolve : String → List Nat)
    (canceled1 canceled2 : Bool) (st : UpdaterState) : UpdaterState × Option String :=
  let r := findSurfsharkServersFromZip fetched extractHostFromOVPN resolve canceled1 canceled2
  let logged := st.logged ++ (if cli then r.2.1.map (fun w => "Surfshark: " ++ w) else [])
  match r.2.2 with
  | some e => ({ st with logged := logged }, some ("cannot update Surfshark servers: " ++ e))
  | none =>
    let printed := st.printed ++ (if stdoutOpt then [stringifySurfsharkServers r.1] else [])
    (⟨⟨now, r.1⟩, logged, printed⟩, none)

/-- Code points of a string, the cheap comparison key used by the
table sanity facts. -/
def strCodes (s : String) : List Nat := s.data.map Char.toNat

/-- Boolean duplicate-freedom check. -/
def nodupB : List (List Nat) → Bool
  | [] => true
  | x :: xs => !(xs.contains x) && nodupB xs

/-- Code-point image of the table keys, used only to make the
duplicate-freedom check of the static table cheap to evaluate. -/
def keyCodes : List (List Nat) :=
  [[97, 101, 45, 100, 117, 98],
   [97, 108, 45, 116, 105, 97],
   [97, 116, 45, 118, 105, 101],
   [97, 117, 45, 97, 100, 108],
   [97, 117, 45, 98, 110, 101],
   [97, 117, 45, 109, 101, 108],
   [97, 117, 45, 112, 101, 114],
   [97, 117, 45, 115, 121, 100],
   [97, 117, 45, 117, 115],
   [97, 122, 45, 98, 97, 107],
   [98, 97, 45, 115, 106, 106],
   [98, 101, 45, 98, 114, 117],
   [98, 103, 45, 115, 111, 102],
   [98, 114, 45, 115, 97, 111],
   [99, 97, 45, 109, 111, 110],
   [99, 97, 45, 116, 111, 114],
   [99, 97, 45, 117, 115],
   [99, 97, 45, 118, 97, 110],
   [99, 104, 45, 122, 117, 114],
   [99, 108, 45, 115, 97, 110],
   [99, 111, 45, 98, 111, 103],
   [99, 114, 45, 115, 106, 110],
   [99, 121, 45, 110, 105, 99],
   [99, 122, 45, 112, 114, 103],
   [100, 101, 45, 98, 101, 114],
   [100, 101, 45, 102, 114, 97],
   [100, 101, 45, 102, 114, 97, 45, 115, 116, 48, 48, 49],
   [100, 101, 45, 102, 114, 97, 45, 115, 116, 48, 48, 50],
   [100, 101, 45, 102, 114, 97, 45, 115, 116, 48, 48, 51],
   [100, 101, 45, 102, 114, 97, 45, 115, 116, 48, 48, 52],
   [100, 101, 45, 102, 114, 97, 45, 115, 116, 48, 48, 53],
   [100, 101, 45, 109, 117, 99],
   [100, 101, 45, 110, 117, 101],
   [100, 101, 45, 115, 103],
   [100, 101, 45, 117, 107],
   [100, 107, 45, 99, 112, 104],
   [101, 101, 45, 116, 108, 108],
   [101, 115, 45, 98, 99, 110],
   [101, 115, 45, 109, 97, 100],
   [101, 115, 45, 118, 108, 99],
   [102, 105, 45, 104, 101, 108],
   [102, 114, 45, 98, 111, 100],
   [102, 114, 45, 109, 114, 115],
   [102, 114, 45, 112, 97, 114],
   [102, 114, 45, 115, 101],
   [103, 114, 45, 97, 116, 104],
   [104, 107, 45, 104, 107, 103],
   [104, 114, 45, 122, 97, 103],
   [104, 117, 45, 98, 117, 100],
   [105, 100, 45, 106, 97, 107],
   [105, 101, 45, 100, 117, 98],
   [105, 108, 45, 116, 108, 118],
   [105, 110, 45, 99, 104, 110],
   [105, 110, 45, 105, 100, 114],
   [105, 110, 45, 109, 117, 109],
   [105, 110, 45, 117, 107],
   [105, 115, 45, 114, 107, 118],
   [105, 116, 45, 109, 105, 108],
   [105, 116, 45, 114, 111, 109],
   [106, 112, 45, 116, 111, 107],
   [106, 112, 45, 116, 111, 107, 45, 115, 116, 48, 48, 49],
   [106, 112, 45, 116, 111, 107, 45, 115, 116, 48, 48, 50],
   [106, 112, 45, 116, 111, 107, 45, 115, 116, 48, 48, 51],
   [106, 112, 45, 116, 111, 107, 45, 115, 116, 48, 48, 52],
   [106, 112, 45, 116, 111, 107, 45, 115, 116, 48, 48, 53],
   [106, 112, 45, 116, 111, 107, 45, 115, 116, 48, 48, 54],
   [106, 112, 45, 116, 111, 107, 45, 115, 116, 48, 48, 55],
   [106, 112, 45, 116, 111, 107, 45, 115, 116, 48, 48, 56],
   [106, 112, 45, 116, 111, 107, 45, 115, 116, 48, 48, 57],
   [106, 112, 45, 116, 111, 107, 45, 115, 116, 48, 49, 48],
   [106, 112, 45, 116, 111, 107, 45, 115, 116, 48, 49, 49],
   [106, 112, 45, 116, 111, 107, 45, 115, 116, 48, 49, 50],
   [106, 112, 45, 116, 111, 107, 45, 115, 116, 48, 49, 51],
   [107, 114, 45, 115, 101, 111],
   [107, 122, 45, 117, 114, 97],
   [108, 117, 45, 115, 116, 101],
   [108, 118, 45, 114, 105, 103],
   [108, 121, 45, 116, 105, 112],
   [109, 100, 45, 99, 104, 105],
   [109, 107, 45, 115, 107, 112],
   [109, 121, 45, 107, 117, 108],
   [110, 103, 45, 108, 97, 103],
   [110, 108, 45, 97, 109, 115],
   [110, 108, 45, 97, 109, 115, 45, 115, 116, 48, 48, 49],
   [110, 108, 45, 117, 115],
   [110, 111, 45, 111, 115, 108],
   [110, 122, 45, 97, 107, 108],
   [112, 104, 45, 109, 110, 108],
   [112, 108, 45, 103, 100, 110],
   [112, 108, 45, 119, 97, 119],
   [112, 116, 45, 108, 105, 115],
   [112, 116, 45, 108, 111, 117],
   [112, 116, 45, 111, 112, 111],
   [112, 121, 45, 97, 115, 117],
   [114, 111, 45, 98, 117, 99],
   [114, 115, 45, 98, 101, 103],
   [114, 117, 45, 109, 111, 115],
   [114, 117, 45, 115, 112, 116],
   [115, 101, 45, 115, 116, 111],
   [115, 103, 45, 104, 107],
   [115, 103, 45, 110, 108],
   [115, 103, 45, 115, 110, 103],
   [115, 103, 45, 105, 110],
   [115, 103, 45, 115, 110, 103, 45, 115, 116, 48, 48, 49],
   [115, 103, 45, 115, 110, 103, 45, 115, 116, 48, 48, 50],
   [115, 103, 45, 115, 110, 103, 45, 115, 116, 48, 48, 51],
   [115, 103, 45, 115, 110, 103, 45, 115, 116, 48, 48, 52],
   [115, 103, 45, 115, 110, 103, 45, 109, 112, 48, 48, 49],
   [115, 105, 45, 108, 106, 117],
   [115, 107, 45, 98, 116, 115],
   [116, 104, 45, 98, 107, 107],
   [116, 114, 45, 98, 117, 114],
   [116, 119, 45, 116, 97, 105],
   [117, 97, 45, 105, 101, 118],
   [117, 107, 45, 100, 101],
   [117, 107, 45, 102, 114],
   [117, 107, 45, 103, 108, 97],
   [117, 107, 45, 108, 111, 110],
   [117, 107, 45, 108, 111, 110, 45, 109, 112, 48, 48, 49],
   [117, 107, 45, 108, 111, 110, 45, 115, 116, 48, 48, 49],
   [117, 107, 45, 108, 111, 110, 45, 115, 116, 48, 48, 50],
   [117, 107, 45, 108, 111, 110, 45, 115, 116, 48, 48, 51],
   [117, 107, 45, 108, 111, 110, 45, 115, 116, 48, 48, 52],
   [117, 107, 45, 108, 111, 110, 45, 115, 116, 48, 48, 53],
   [117, 107, 45, 109, 97, 110],
   [117, 115, 45, 97, 116, 108],
   [117, 115, 45, 98, 100, 110],
   [117, 115, 45, 98, 111, 115],
   [117, 115, 45, 98, 117, 102],
   [117, 115, 45, 99, 104, 105],
   [117, 115, 45, 99, 108, 116],
   [117, 115, 45, 100, 97, 108],
   [117, 115, 45, 100, 101, 110],
   [117, 115, 45, 100, 116, 119],
   [117, 115, 45, 104, 111, 117],
   [117, 115, 45, 107, 97, 110],
   [117, 115, 45, 108, 97, 115],
   [117, 115, 45, 108, 97, 120],
   [117, 115, 45, 108, 116, 109],
   [117, 115, 45, 109, 105, 97],
   [117, 115, 45, 109, 110, 122],
   [117, 115, 45, 110, 108],
   [117, 115, 45, 110, 121, 99],
   [117, 115, 45, 110, 121, 99, 45, 109, 112, 48, 48, 49],
   [117, 115, 45, 110, 121, 99, 45, 115, 116, 48, 48, 49],
   [117, 115, 45, 110, 121, 99, 45, 115, 116, 48, 48, 50],
   [117, 115, 45, 110, 121, 99, 45, 115, 116, 48, 48, 51],
   [117, 115, 45, 110, 121, 99, 45, 115, 116, 48, 48, 52],
   [117, 115, 45, 110, 121, 99, 45, 115, 116, 48, 48, 53],
   [117, 115, 45, 111, 114, 108],
   [117, 115, 45, 112, 104, 120],
   [117, 115, 45, 112, 116],
   [117, 115, 45, 115, 101, 97],
   [117, 115, 45, 115, 102, 111],
   [117, 115, 45, 115, 108, 99],
   [117, 115, 45, 115, 116, 108],
   [117, 115, 45, 116, 112, 97],
   [118, 110, 45, 104, 99, 109],
   [122, 97, 45, 106, 110, 98],
   [97, 114, 45, 98, 117, 97],
   [116, 114, 45, 105, 115, 116],
   [109, 120, 45, 109, 101, 120],
   [99, 97, 45, 116, 111, 114, 45, 109, 112, 48, 48, 49],
   [100, 101, 45, 102, 114, 97, 45, 109, 112, 48, 48, 49],
   [110, 108, 45, 97, 109, 115, 45, 109, 112, 48, 48, 49],
   [117, 115, 45, 115, 102, 111, 45, 109, 112, 48, 48, 49]]

/-- Code-point image of the table values, used only to make the
duplicate-freedom check of the static table cheap to evaluate. -/
def valueCodes : List (List Nat) :=
  [[85, 110, 105, 116, 101, 100, 32, 65, 114, 97, 98, 32, 69, 109, 105, 114, 97, 116, 101, 115],
   [65, 108, 98, 97, 110, 105, 97],
   [65, 117, 115, 116, 114, 105, 97],
   [65, 117, 115, 116, 114, 97, 108, 105, 97, 32, 65, 100, 101, 108, 97, 105, 100, 101],
   [65, 117, 115, 116, 114, 97, 108, 105, 97, 32, 66, 114, 105, 115, 98, 97, 110, 101],
   [65, 117, 115, 116, 114, 97, 108, 105, 97, 32, 77, 101, 108, 98, 111, 117, 114, 110, 101],
   [65, 117, 115, 116, 114, 97, 108, 105, 97, 32, 80, 101, 114, 116, 104],
   [65, 117, 115, 116, 114, 97, 108, 105, 97, 32, 83, 121, 100, 110, 101, 121],
   [65, 117, 115, 116, 114, 97, 108, 105, 97, 32, 85, 83],
   [65, 122, 101, 114, 98, 97, 105, 106, 97, 110],
   [66, 111, 115, 110, 105, 97, 32, 97, 110, 100, 32, 72, 101, 114, 122, 101, 103, 111, 118, 105, 110, 97],
   [66, 101, 108, 103, 105, 117, 109],
   [66, 117, 108, 103, 97, 114, 105, 97],
   [66, 114, 97, 122, 105, 108],
   [67, 97, 110, 97, 100, 97, 32, 77, 111, 110, 116, 114, 101, 97, 108],
   [67, 97, 110, 97, 100, 97, 32, 84, 111, 114, 111, 110, 116, 111],
   [67, 97, 110, 97, 100, 97, 32, 85, 83],
   [67, 97, 110, 97, 100, 97, 32, 86, 97, 110, 99, 111, 117, 118, 101, 114],
   [83, 119, 105, 116, 122, 101, 114, 108, 97, 110, 100],
   [67, 104, 105, 108, 101],
   [67, 111, 108, 111, 109, 98, 105, 97],
   [67, 111, 115, 116, 97, 32, 82, 105, 99, 97],
   [67, 121, 112, 114, 117, 115],
   [67, 122, 101, 99, 104, 32, 82, 101, 112, 117, 98, 108, 105, 99],
   [71, 101, 114, 109, 97, 110, 121, 32, 66, 101, 114, 108, 105, 110],
   [71, 101, 114, 109, 97, 110, 121, 32, 70, 114, 97, 110, 107, 102, 117, 114, 116, 32, 97, 109, 32, 77, 97, 105, 110],
   [71, 101, 114, 109, 97, 110, 121, 32, 70, 114, 97, 110, 107, 102, 117, 114, 116, 32, 97, 109, 32, 77, 97, 105, 110, 32, 115, 116, 48, 48, 49],
   [71, 101, 114, 109, 97, 110, 121, 32, 70, 114, 97, 110, 107, 102, 117, 114, 116, 32, 97, 109, 32, 77, 97, 105, 110, 32, 115, 116, 48, 48, 50],
   [71, 101, 114, 109, 97, 110, 121, 32, 70, 114, 97, 110, 107, 102, 117, 114, 116, 32, 97, 109, 32, 77, 97, 105, 110, 32, 115, 116, 48, 48, 51],
   [71, 101, 114, 109, 97, 110, 121, 32, 70, 114, 97, 110, 107, 102, 117, 114, 116, 32, 97, 109, 32, 77, 97, 105, 110, 32, 115, 116, 48, 48, 52],
   [71, 101, 114, 109, 97, 110, 121, 32, 70, 114, 97, 110, 107, 102, 117, 114, 116, 32, 97, 109, 32, 77, 97, 105, 110, 32, 115, 116, 48, 48, 53],
   [71, 101, 114, 109, 97, 110, 121, 32, 77, 117, 110, 105, 99, 104],
   [71, 101, 114, 109, 97, 110, 121, 32, 78, 117, 114, 101, 109, 98, 101, 114, 103],
   [71, 101, 114, 109, 97, 110, 121, 32, 83, 105, 110, 103, 97, 112, 111, 117, 114],
   [71, 101, 114, 109, 97, 110, 121, 32, 85, 75],
   [68, 101, 110, 109, 97, 114, 107],
   [69, 115, 116, 111, 110, 105, 97],
   [83, 112, 97, 105, 110, 32, 66, 97, 114, 99, 101, 108, 111, 110, 97],
   [83, 112, 97, 105, 110, 32, 77, 97, 100, 114, 105, 100],
   [83, 112, 97, 105, 110, 32, 86, 97, 108, 101, 110, 99, 105, 97],
   [70, 105, 110, 108, 97, 110, 100],
   [70, 114, 97, 110, 99, 101, 32, 66, 111, 114, 100, 101, 97, 117, 120],
   [70, 114, 97, 110, 99, 101, 32, 77, 97, 114, 115, 101, 105, 108, 108, 101, 115],
   [70, 114, 97, 110, 99, 101, 32, 80, 97, 114, 105, 115],
   [70, 114, 97, 110, 99, 101, 32, 83, 119, 101, 100, 101, 110],
   [71, 114, 101, 101, 99, 101],
   [72, 111, 110, 103, 32, 75, 111, 110, 103],
   [67, 114, 111, 97, 116, 105, 97],
   [72, 117, 110, 103, 97, 114, 121],
   [73, 110, 100, 111, 110, 101, 115, 105, 97],
   [73, 114, 101, 108, 97, 110, 100],
   [73, 115, 114, 97, 101, 108],
   [73, 110, 100, 105, 97, 32, 67, 104, 101, 110, 110, 97, 105],
   [73, 110, 100, 105, 97, 32, 73, 110, 100, 111, 114, 101],
   [73, 110, 100, 105, 97, 32, 77, 117, 109, 98, 97, 105],
   [73, 110, 100, 105, 97, 32, 85, 75],
   [73, 99, 101, 108, 97, 110, 100],
   [73, 116, 97, 108, 121, 32, 77, 105, 108, 97, 110],
   [73, 116, 97, 108, 121, 32, 82, 111, 109, 101],
   [74, 97, 112, 97, 110, 32, 84, 111, 107, 121, 111],
   [74, 97, 112, 97, 110, 32, 84, 111, 107, 121, 111, 32, 115, 116, 48, 48, 49],
   [74, 97, 112, 97, 110, 32, 84, 111, 107, 121, 111, 32, 115, 116, 48, 48, 50],
   [74, 97, 112, 97, 110, 32, 84, 111, 107, 121, 111, 32, 115, 116, 48, 48, 51],
   [74, 97, 112, 97, 110, 32, 84, 111, 107, 121, 111, 32, 115, 116, 48, 48, 52],
   [74, 97, 112, 97, 110, 32, 84, 111, 107, 121, 111, 32, 115, 116, 48, 48, 53],
   [74, 97, 112, 97, 110, 32, 84, 111, 107, 121, 111, 32, 115, 116, 48, 48, 54],
   [74, 97, 112, 97, 110, 32, 84, 111, 107, 121, 111, 32, 115, 116, 48, 48, 55],
   [74, 97, 112, 97, 110, 32, 84, 111, 107, 121, 111, 32, 115, 116, 48, 48, 56],
   [74, 97, 112, 97, 110, 32, 84, 111, 107, 121, 111, 32, 115, 116, 48, 48, 57],
   [74, 97, 112, 97, 110, 32, 84, 111, 107, 121, 111, 32, 115, 116, 48, 49, 48],
   [74, 97, 112, 97, 110, 32, 84, 111, 107, 121, 111, 32, 115, 116, 48, 49, 49],
   [74, 97, 112, 97, 110, 32, 84, 111, 107, 121, 111, 32, 115, 116, 48, 49, 50],
   [74, 97, 112, 97, 110, 32, 84, 111, 107, 121, 111, 32, 115, 116, 48, 49, 51],
   [75, 111, 114, 101, 97],
   [75, 97, 122, 97, 107, 104, 115, 116, 97, 110],
   [76, 117, 120, 101, 109, 98, 111, 117, 114, 103],
   [76, 97, 116, 118, 105, 97],
   [76, 105, 98, 121, 97],
   [77, 111, 108, 100, 111, 118, 97],
   [78, 111, 114, 116, 104, 32, 77, 97, 99, 101, 100, 111, 110, 105, 97],
   [77, 97, 108, 97, 121, 115, 105, 97],
   [78, 105, 103, 101, 114, 105, 97],
   [78, 101, 116, 104, 101, 114, 108, 97, 110, 100, 115, 32, 65, 109, 115, 116, 101, 114, 100, 97, 109],
   [78, 101, 116, 104, 101, 114, 108, 97, 110, 100, 115, 32, 65, 109, 115, 116, 101, 114, 100, 97, 109, 32, 115, 116, 48, 48, 49],
   [78, 101, 116, 104, 101, 114, 108, 97, 110, 100, 115, 32, 85, 83],
   [78, 111, 114, 119, 97, 121],
   [78, 101, 119, 32, 90, 101, 97, 108, 97, 110, 100],
   [80, 104, 105, 108, 105, 112, 112, 105, 110, 101, 115],
   [80, 111, 108, 97, 110, 100, 32, 71, 100, 97, 110, 115, 107],
   [80, 111, 108, 97, 110, 100, 32, 87, 97, 114, 115, 97, 119],
   [80, 111, 114, 116, 117, 103, 97, 108, 32, 76, 105, 115, 98, 111, 110],
   [80, 111, 114, 116, 117, 103, 97, 108, 32, 76, 111, 117, 108, 101],
   [80, 111, 114, 116, 117, 103, 97, 108, 32, 80, 111, 114, 116, 111],
   [80, 97, 114, 97, 103, 117, 97, 121],
   [82, 111, 109, 97, 110, 105, 97],
   [83, 101, 114, 98, 105, 97],
   [82, 117, 115, 115, 105, 97, 32, 77, 111, 115, 99, 111, 119],
   [82, 117, 115, 115, 105, 97, 32, 83, 116, 46, 32, 80, 101, 116, 101, 114, 115, 98, 117, 114, 103],
   [83, 119, 101, 100, 101, 110],
   [83, 105, 110, 103, 97, 112, 111, 114, 101, 32, 72, 111, 110, 103, 32, 75, 111, 110, 103],
   [83, 105, 110, 103, 97, 112, 111, 114, 101, 32, 78, 101, 116, 104, 101, 114, 108, 97, 110, 100, 115],
   [83, 105, 110, 103, 97, 112, 111, 114, 101],
   [83, 105, 110, 103, 97, 112, 111, 114, 101, 32, 105, 110],
   [83, 105, 110, 103, 97, 112, 111, 114, 101, 32, 115, 116, 48, 48, 49],
   [83, 105, 110, 103, 97, 112, 111, 114, 101, 32, 115, 116, 48, 48, 50],
   [83, 105, 110, 103, 97, 112, 111, 114, 101, 32, 115, 116, 48, 48, 51],
   [83, 105, 110, 103, 97, 112, 111, 114, 101, 32, 115, 116, 48, 48, 52],
   [83, 105, 110, 103, 97, 112, 111, 114, 101, 32, 109, 112, 48, 48, 49],
   [83, 108, 111, 118, 101, 110, 105, 97],
   [83, 108, 111, 118, 101, 107, 105, 97],
   [84, 104, 97, 105, 108, 97, 110, 100],
   [84, 117, 114, 107, 101, 121],
   [84, 97, 105, 119, 97, 110],
   [85, 107, 114, 97, 105, 110, 101],
   [85, 75, 32, 71, 101, 114, 109, 97, 110, 121],
   [85, 75, 32, 70, 114, 97, 110, 99, 101],
   [85, 75, 32, 71, 108, 97, 115, 103, 111, 119],
   [85, 75, 32, 76, 111, 110, 100, 111, 110],
   [85, 75, 32, 76, 111, 110, 100, 111, 110, 32, 109, 112, 48, 48, 49],
   [85, 75, 32, 76, 111, 110, 100, 111, 110, 32, 115, 116, 48, 48, 49],
   [85, 75, 32, 76, 111, 110, 100, 111, 110, 32, 115, 116, 48, 48, 50],
   [85, 75, 32, 76, 111, 110, 100, 111, 110, 32, 115, 116, 48, 48, 51],
   [85, 75, 32, 76, 111, 110, 100, 111, 110, 32, 115, 116, 48, 48, 52],
   [85, 75, 32, 76, 111, 110, 100, 111, 110, 32, 115, 116, 48, 48, 53],
   [85, 75, 32, 77, 97, 110, 99, 104, 101, 115, 116, 101, 114],
   [85, 83, 32, 65, 116, 108, 97, 110, 116, 97],
   [85, 83, 32, 66, 101, 110, 100],
   [85, 83, 32, 66, 111, 115, 116, 111, 110],
   [85, 83, 32, 66, 117, 102, 102, 97, 108, 111],
   [85, 83, 32, 67, 104, 105, 99, 97, 103, 111],
   [85, 83, 32, 67, 104, 97, 114, 108, 111, 116, 116, 101],
   [85, 83, 32, 68, 97, 108, 108, 97, 115],
   [85, 83, 32, 68, 101, 110, 118, 101, 114],
   [85, 83, 32, 71, 97, 104, 97, 110, 110, 97],
   [85, 83, 32, 72, 111, 117, 115, 116, 111, 110],
   [85, 83, 32, 75, 97, 110, 115, 97, 115, 32, 67, 105, 116, 121],
   [85, 83, 32, 76, 97, 115, 32, 86, 101, 103, 97, 115],
   [85, 83, 32, 76, 111, 115, 32, 65, 110, 103, 101, 108, 101, 115],
   [85, 83, 32, 76, 97, 116, 104, 97, 109],
   [85, 83, 32, 77, 105, 97, 109, 105],
   [85, 83, 32, 77, 97, 114, 121, 108, 97, 110, 100],
   [85, 83, 32, 78, 101, 116, 104, 101, 114, 108, 97, 110, 100, 115],
   [85, 83, 32, 78, 101, 119, 32, 89, 111, 114, 107, 32, 67, 105, 116, 121],
   [85, 83, 32, 78, 101, 119, 32, 89, 111, 114, 107, 32, 67, 105, 116, 121, 32, 109, 112, 48, 48, 49],
   [85, 83, 32, 78, 101, 119, 32, 89, 111, 114, 107, 32, 67, 105, 116, 121, 32, 115, 116, 48, 48, 49],
   [85, 83, 32, 78, 101, 119, 32, 89, 111, 114, 107, 32, 67, 105, 116, 121, 32, 115, 116, 48, 48, 50],
   [85, 83, 32, 78, 101, 119, 32, 89, 111, 114, 107, 32, 67, 105, 116, 121, 32, 115, 116, 48, 48, 51],
   [85, 83, 32, 78, 101, 119, 32, 89, 111, 114, 107, 32, 67, 105, 116, 121, 32, 115, 116, 48, 48, 52],
   [85, 83, 32, 78, 101, 119, 32, 89, 111, 114, 107, 32, 67, 105, 116, 121, 32, 115, 116, 48, 48, 53],
   [85, 83, 32, 79, 114, 108, 97, 110, 100, 111],
   [85, 83, 32, 80, 104, 111, 101, 110, 105, 120],
   [85, 83, 32, 80, 111, 114, 116, 117, 103, 97, 108],
   [85, 83, 32, 83, 101, 97, 116, 108, 101],
   [85, 83, 32, 83, 97, 110, 32, 70, 114, 97, 110, 99, 105, 115, 99, 111],
   [85, 83, 32, 83, 97, 108, 116, 32, 76, 97, 107, 101, 32, 67, 105, 116, 121],
   [85, 83, 32, 83, 97, 105, 110, 116, 32, 76, 111, 117, 105, 115],
   [85, 83, 32, 84, 97, 109, 112, 97],
   [86, 105, 101, 116, 110, 97, 109],
   [83, 111, 117, 116, 104, 32, 65, 102, 114, 105, 99, 97],
   [65, 114, 103, 101, 110, 116, 105, 110, 97, 32, 66, 117, 101, 110, 111, 115, 32, 65, 105, 114, 101, 115],
   [84, 117, 114, 107, 101, 121, 32, 73, 115, 116, 97, 110, 98, 117, 108],
   [77, 101, 120, 105, 99, 111, 32, 67, 105, 116, 121, 32, 77, 101, 120, 105, 99, 111],
   [67, 97, 110, 97, 100, 97, 32, 84, 111, 114, 111, 110, 116, 111, 32, 109, 112, 48, 48, 49],
   [71, 101, 114, 109, 97, 110, 121, 32, 70, 114, 97, 110, 107, 102, 117, 114, 116, 32, 109, 112, 48, 48, 49],
   [78, 101, 116, 104, 101, 114, 108, 97, 110, 100, 115, 32, 65, 109, 115, 116, 101, 114, 100, 97, 109, 32, 109, 112, 48, 48, 49],
   [85, 83, 32, 83, 97, 110, 32, 70, 114, 97, 110, 99, 105, 115, 99, 111, 32, 109, 112, 48, 48, 49]]

lemma nodupB_sound : ∀ l : List (List Nat), nodupB l = true → l.Nodup
  | [], _ => List.nodup_nil
  | x :: xs, h => by
    simp only [nodupB, Bool.and_eq_true, Bool.not_eq_true'] at h
    refine List.nodup_cons.mpr ⟨fun hm => ?_, nodupB_sound xs h.2⟩
    have he : List.elem x xs = true := List.elem_iff.mpr hm
    rw [show xs.contains x = List.elem x xs from rfl, he] at h
    exact Bool.true_eq_false.mp h.1

lemma table_keys_nodup : (keysOf surfsharkSubdomainToRegion).Nodup := by
  have h : (keysOf surfsharkSubdomainToRegion).map strCodes = keyCodes := by rfl
  exact List.Nodup.of_map strCodes (h ▸ nodupB_sound keyCodes (by rfl))

lemma table_values_nodup : (valuesOf surfsharkSubdomainToRegion).Nodup := by
  have h : (valuesOf surfsharkSubdomainToRegion).map strCodes = valueCodes := by rfl
  exact List.Nodup.of_map strCodes (h ▸ nodupB_sound valueCodes (by rfl))

lemma extractZip_append (parse : String → ParseOut) :
    ∀ l1 l2, extractZip parse (l1 ++ l2) =
      ((extractZip parse l1).1 ++ (extractZip parse l2).1,
       (extractZip parse l1).2 ++ (extractZip parse l2).2)
  | [], l2 => by simp [extractZip]
  | (fn, c) :: l1, l2 => by
    have ih := extractZip_append parse l1 l2
    by_cases htcp : strEndsWith fn "_tcp.ovpn" = true
    · simp only [List.cons_append, extractZip, htcp, if_true]
      exact ih
    · rw [Bool.not_eq_true] at htcp
      cases hp : (parse c).err with
      | some e => simp [extractZip, htcp, hp, ih, List.append_assoc]
      | none => simp [extractZip, htcp, hp, ih, List.append_assoc]

/-- C3: the server list returned by `findSurfsharkServersFromZip` on
success is sorted non-decreasing by region name under lexicographic
string comparison. -/
theorem c3_sorted_by_region (fetched : Except String (List (String × String)))
    (parse : String → ParseOut) (resolve : String → List Nat) (c1 c2 : Bool)
    (h : (findSurfsharkServersFromZip fetched parse resolve c1 c2).2.2 = none) :
    List.Sorted regionLE (findSurfsharkServersFromZip fetched parse resolve c1 c2).1 := by
  rcases fetched with e | contents
  · simp [findSurfsharkServersFromZip] at h
  · simp only [findSurfsharkServersFromZip]
    cases hr : (parallelResolve resolve c1 (extractZip parse contents).1 true).err with
    | some e =>
      simp only [findSurfsharkServersFromZip, hr] at h
      exact (Option.some_ne_none e h).elim
    | none =>
      simp only [hr]
      exact List.sorted_insertionSort regionLE _

/-- C3 witness: a concrete successful run has a sorted result. -/
theorem c3_sorted_by_region_witness :
    List.Sorted regionLE
      (findSurfsharkServersFromZip (.ok []) (fun _ => ⟨"", "", none⟩) (fun _ => []) false true).1 :=
  c3_sorted_by_region (.ok []) (fun _ => ⟨"", "", none⟩) (fun _ => []) false true (by rfl)

/-- C4: every `_tcp.ovpn` file is skipped during extraction, producing
no warning and no hostname; in particular an archive holding
`x_tcp.ovpn` and `x_udp.ovpn`, the latter parsing to host `x`, yields
exactly the one hostname `x`. -/
theorem c4_tcp_variant_skip :
    (∀ (parse : String → ParseOut) (l1 l2 : List (String × String)) (fn c : String),
      strEndsWith fn "_tcp.ovpn" = true →
      extractZip parse (l1 ++ (fn, c) :: l2) = extractZip parse (l1 ++ l2)) ∧
    (∀ (parse : String → ParseOut) (c1 c2 x w : String),
      parse c2 = ⟨x, w, none⟩ →
      (extractZip parse [("x_tcp.ovpn", c1), ("x_udp.ovpn", c2)]).1 = [x]) := by
  constructor
  · intro parse l1 l2 fn c htcp
    rw [extractZip_append, extractZip_append]
    simp [extractZip, htcp]
  · intro parse c1 c2 x w hp
    simp [extractZip, hp, show strEndsWith "x_tcp.ovpn" "_tcp.ovpn" = true from rfl,
      show strEndsWith "x_udp.ovpn" "_tcp.ovpn" = false from rfl]

/-- C4 witness: concrete instance of both parts. -/
theorem c4_tcp_variant_skip_witness :
    extractZip (fun _ => ⟨"x", "", none⟩) [("a_tcp.ovpn", "c"), ("b.ovpn", "d")] =
      extractZip (fun _ => ⟨"x", "", none⟩) [("b.ovpn", "d")] ∧
    (extractZip (fun _ => ⟨"x", "", none⟩) [("x_tcp.ovpn", "c1"), ("x_udp.ovpn", "c2")]).1 = ["x"] :=
  ⟨c4_tcp_variant_skip.1 (fun _ => ⟨"x", "", none⟩) [] [("b.ovpn", "d")] "a_tcp.ovpn" "c" (by rfl),
   c4_tcp_variant_skip.2 (fun _ => ⟨"x", "", none⟩) "c1" "c2" "x" "" (by rfl)⟩

/-- C5 counterexample: two distinct eligible files parsing to the same
host make the candidate hostname list contain that host twice, so the
extraction step does not deduplicate. -/
theorem c5_no_dedup_counterexample :
    ¬ ((extractZip (fun _ => ⟨"x", "", none⟩) [("a.ovpn", ""), ("b.ovpn", "")]).1.Nodup) := by
  decide

/-- C5 amended: the candidate hostname list is not deduplicated; it
contains each hostname once per eligible file whose parse yields that
hostname, so several distinct eligible files yielding the same host
produce several occurrences. -/
theorem c5_amended_count (parse : String → ParseOut) :
    ∀ (contents : List (String × String)) (h : String),
      (extractZip parse contents).1.count h =
      (contents.filter (fun f => !strEndsWith f.1 "_tcp.ovpn" && (parse f.2).err.isNone
          && ((parse f.2).host == h))).length
  | [], _ => by simp [extractZip]
  | (fn, c) :: rest, h => by
    have ih := c5_amended_count parse rest h
    by_cases htcp : strEndsWith fn "_tcp.ovpn" = true
    · simp [extractZip, htcp, ih, List.filter_cons]
    · rw [Bool.not_eq_true] at htcp
      cases hp : (parse c).err with
      | some e => simp [extractZip, htcp, hp, ih, List.filter_cons]
      | none =>
        by_cases hh : (parse c).host == h
        · simp [extractZip, htcp, hp, ih, List.filter_cons, hh, List.count_cons]
        · rw [Bool.not_eq_true] at hh
          simp [extractZip, htcp, hp, ih, List.filter_cons, hh, List.count_cons]

/-- C6: a per-file parse failure is downgraded to exactly one warning
embedding the file name; the file's host is skipped, all other files are
processed as if the bad file were absent, and the overall call returns
the same servers and the same error status as without the bad file. -/
theorem c6_parse_failure_downgraded (parse : String → ParseOut) (resolve : String → List Nat)
    (c1 c2 : Bool) (l1 l2 : List (String × String)) (fn c h0 e : String)
    (htcp : strEndsWith fn "_tcp.ovpn" = false) (hp : parse c = ⟨h0, "", some e⟩) :
    (extractZip parse (l1 ++ (fn, c) :: l2)).1 = (extractZip parse (l1 ++ l2)).1 ∧
    (extractZip parse (l1 ++ (fn, c) :: l2)).2 =
      (extractZip parse l1).2 ++ (e ++ " in " ++ fn) :: (extractZip parse l2).2 ∧
    (findSurfsharkServersFromZip (.ok (l1 ++ (fn, c) :: l2)) parse resolve c1 c2).1 =
      (findSurfsharkServersFromZip (.ok (l1 ++ l2)) parse resolve c1 c2).1 ∧
    (findSurfsharkServersFromZip (.ok (l1 ++ (fn, c) :: l2)) parse resolve c1 c2).2.2 =
      (findSurfsharkServersFromZip (.ok (l1 ++ l2)) parse resolve c1 c2).2.2 := by
  have hx : extractZip parse (l1 ++ (fn, c) :: l2) =
      ((extractZip parse (l1 ++ l2)).1,
       (extractZip parse l1).2 ++ (e ++ " in " ++ fn) :: (extractZip parse l2).2) := by
    rw [extractZip_append parse l1 ((fn, c) :: l2), extractZip_append parse l1 l2]
    simp [extractZip, htcp, hp]
  refine ⟨by rw [hx], by rw [hx], ?_, ?_⟩ <;>
    simp only [findSurfsharkServersFromZip, hx] <;>
    cases herr : (parallelResolve resolve c1 (extractZip parse (l1 ++ l2)).1 true).err <;>
    simp [herr]

/-- C6 witness: concrete instance with one unparseable file. -/
theorem c6_parse_failure_downgraded_witness :
    (extractZip (fun _ => ⟨"", "", some "bad file"⟩) [("f.ovpn", "y")]).1 =
      (extractZip (fun _ => ⟨"", "", some "bad file"⟩) []).1 ∧
    (extractZip (fun _ => ⟨"", "", some "bad file"⟩) [("f.ovpn", "y")]).2 =
      (extractZip (fun _ => ⟨"", "", some "bad file"⟩) []).2 ++
        ("bad file" ++ " in " ++ "f.ovpn") :: (extractZip (fun _ => ⟨"", "", some "bad file"⟩) []).2 ∧
    (findSurfsharkServersFromZip (.ok [("f.ovpn", "y")]) (fun _ => ⟨"", "", some "bad file"⟩)
        (fun _ => [1]) false true).1 =
      (findSurfsharkServersFromZip (.ok []) (fun _ => ⟨"", "", some "bad file"⟩)
        (fun _ => [1]) false true).1 ∧
    (findSurfsharkServersFromZip (.ok [("f.ovpn", "y")]) (fun _ => ⟨"", "", some "bad file"⟩)
        (fun _ => [1]) false true).2.2 =
      (findSurfsharkServersFromZip (.ok []) (fun _ => ⟨"", "", some "bad file"⟩)
        (fun _ => [1]) false true).2.2 :=
  c6_parse_failure_downgraded (fun _ => ⟨"", "", some "bad file"⟩) (fun _ => [1])
    false true [] [] "f.ovpn" "y" "" "bad file" (by rfl) (by rfl)

/-- C7: when the strict pass-1 resolution fails, the error is returned
with an empty server list, and `updateSurfshark` fails with the wrapped
error without touching the stored record. -/
theorem c7_strict_failure_aborts (contents : List (String × String))
    (parse : String → ParseOut) (resolve : String → List Nat) (c1 c2 cli so : Bool)
    (now : Int) (st : UpdaterState) (e : String)
    (hr : (parallelResolve resolve c1 (extractZip parse contents).1 true).err = some e) :
    findSurfsharkServersFromZip (.ok contents) parse resolve c1 c2 =
      ([], (extractZip parse contents).2, some e) ∧
    (updateSurfshark cli so now (.ok contents) parse resolve c1 c2 st).2 =
      some ("cannot update Surfshark servers: " ++ e) ∧
    (updateSurfshark cli so now (.ok contents) parse resolve c1 c2 st).1.surfshark =
      st.surfshark := by
  have hf : findSurfsharkServersFromZip (.ok contents) parse resolve c1 c2 =
      ([], (extractZip parse contents).2, some e) := by
    simp only [findSurfsharkServersFromZip, hr]
  refine ⟨hf, ?_, ?_⟩ <;> simp only [updateSurfshark, hf]

/-- C7 witness: one archive host that never resolves in strict mode. -/
theorem c7_strict_failure_aborts_witness :
    findSurfsharkServersFromZip (.ok [("a.ovpn", "z")]) (fun _ => ⟨"h", "", none⟩)
        (fun _ => []) false true =
      ([], (extractZip (fun _ => ⟨"h", "", none⟩) [("a.ovpn", "z")]).2, some "resolution exhausted") ∧
    (updateSurfshark true true 5 (.ok [("a.ovpn", "z")]) (fun _ => ⟨"h", "", none⟩)
        (fun _ => []) false true ⟨⟨0, []⟩, [], []⟩).2 =
      some ("cannot update Surfshark servers: " ++ "resolution exhausted") ∧
    (updateSurfshark true true 5 (.ok [("a.ovpn", "z")]) (fun _ => ⟨"h", "", none⟩)
        (fun _ => []) false true ⟨⟨0, []⟩, [], []⟩).1.surfshark = ⟨0, []⟩ :=
  c7_strict_failure_aborts [("a.ovpn", "z")] (fun _ => ⟨"h", "", none⟩) (fun _ => [])
    false true true true 5 ⟨⟨0, []⟩, [], []⟩ "resolution exhausted" (by rfl)

/-- C9: in the pass-1 loop, a resolved host whose subdomain code misses
the working table yields a server whose region is the bare subdomain
plus exactly one warning naming the subdomain, while a matching code
yields a server with the table's region name and is removed from the
working table copy. -/
theorem c9_unmapped_code_fallback (mapping : List (String × String)) (host : String)
    (IPs : List Nat) (rest : List (String × List Nat)) (region : String)
    (hne : IPs.isEmpty = false) :
    (mlookup mapping (trimSuffix host surfSuffix) = none →
      reconcileHosts mapping ((host, IPs) :: rest) =
        ((reconcileHosts mapping rest).1,
         ⟨trimSuffix host surfSuffix, uniqueSortedIPs IPs⟩ :: (reconcileHosts mapping rest).2.1,
         subdomainWarning (trimSuffix host surfSuffix) :: (reconcileHosts mapping rest).2.2)) ∧
    (mlookup mapping (trimSuffix host surfSuffix) = some region →
      reconcileHosts mapping ((host, IPs) :: rest) =
        ((reconcileHosts (mdelete mapping (trimSuffix host surfSuffix)) rest).1,
         ⟨region, uniqueSortedIPs IPs⟩ ::
           (reconcileHosts (mdelete mapping (trimSuffix host surfSuffix)) rest).2.1,
         (reconcileHosts (mdelete mapping (trimSuffix host surfSuffix)) rest).2.2) ∧
      trimSuffix host surfSuffix ∉ keysOf (mdelete mapping (trimSuffix host surfSuffix))) := by
  constructor
  · intro hnone
    simp [reconcileHosts, hne, hnone]
  · intro hsome
    refine ⟨by simp [reconcileHosts, hne, hsome], fun ht => ?_⟩
    rcases List.mem_map.mp ht with ⟨p, hp, hpt⟩
    have hne2 := (List.mem_filter.mp hp).2
    rw [hpt] at hne2
    simp at hne2

/-- C9 witness: one unmatched host and one matched host. -/
theorem c9_unmapped_code_fallback_witness :
    reconcileHosts [("al-tia", "Albania")] [("b", [1])] =
      ((reconcileHosts [("al-tia", "Albania")] []).1,
       ⟨trimSuffix "b" surfSuffix, uniqueSortedIPs [1]⟩ ::
         (reconcileHosts [("al-tia", "Albania")] []).2.1,
       subdomainWarning (trimSuffix "b" surfSuffix) ::
         (reconcileHosts [("al-tia", "Albania")] []).2.2) ∧
    reconcileHosts [("al-tia", "Albania")] [("al-tia.prod.surfshark.com", [2])] =
      ((reconcileHosts (mdelete [("al-tia", "Albania")]
          (trimSuffix "al-tia.prod.surfshark.com" surfSuffix)) []).1,
       ⟨"Albania", uniqueSortedIPs [2]⟩ ::
         (reconcileHosts (mdelete [("al-tia", "Albania")]
           (trimSuffix "al-tia.prod.surfshark.com" surfSuffix)) []).2.1,
       (reconcileHosts (mdelete [("al-tia", "Albania")]
         (trimSuffix "al-tia.prod.surfshark.com" surfSuffix)) []).2.2) :=
  ⟨(c9_unmapped_code_fallback [("al-tia", "Albania")] "b" [1] [] "Albania" (by rfl)).1 (by rfl),
   ((c9_unmapped_code_fallback [("al-tia", "Albania")] "al-tia.prod.surfshark.com" [2] []
      "Albania" (by rfl)).2 (by rfl)).1⟩

/-- C10: `updateSurfshark` logs warnings exactly when the CLI option is
set (even on a failed run, since logging precedes the error check), and
updates the stored record exactly when the pipeline succeeded. -/
theorem c10_update_atomicity (fetched : Except String (List (String × String)))
    (parse : String → ParseOut) (resolve : String → List Nat) (c1 c2 cli so : Bool)
    (now : Int) (st : UpdaterState) :
    (updateSurfshark cli so now fetched parse resolve c1 c2 st).1.logged =
      st.logged ++ (if cli then
        (findSurfsharkServersFromZip fetched parse resolve c1 c2).2.1.map
          (fun w => "Surfshark: " ++ w) else []) ∧
    (∀ e, (findSurfsharkServersFromZip fetched parse resolve c1 c2).2.2 = some e →
      (updateSurfshark cli so now fetched parse resolve c1 c2 st).2 =
        some ("cannot update Surfshark servers: " ++ e) ∧
      (updateSurfshark cli so now fetched parse resolve c1 c2 st).1.surfshark = st.surfshark) ∧
    ((findSurfsharkServersFromZip fetched parse resolve c1 c2).2.2 = none →
      (updateSurfshark cli so now fetched parse resolve c1 c2 st).2 = none ∧
      (updateSurfshark cli so now fetched parse resolve c1 c2 st).1.surfshark =
        ⟨now, (findSurfsharkServersFromZip fetched parse resolve c1 c2).1⟩) := by
  cases hr : (findSurfsharkServersFromZip fetched parse resolve c1 c2).2.2 with
  | some e =>
    have hu : updateSurfshark cli so now fetched parse resolve c1 c2 st =
        ({ st with logged := st.logged ++ (if cli then
            (findSurfsharkServersFromZip fetched parse resolve c1 c2).2.1.map
              (fun w => "Surfshark: " ++ w) else []) },
         some ("cannot update Surfshark servers: " ++ e)) := by
      simp only [updateSurfshark, hr]
    refine ⟨by rw [hu], ?_, ?_⟩
    · intro e2 he2
      obtain rfl : e2 = e := (Option.some.inj he2).symm
      rw [hu]
      exact ⟨rfl, rfl⟩
    · intro hnone
      exact absurd hnone (by simp)
  | none =>
    have hu : updateSurfshark cli so now fetched parse resolve c1 c2 st =
        (⟨⟨now, (findSurfsharkServersFromZip fetched parse resolve c1 c2).1⟩,
          st.logged ++ (if cli then
            (findSurfsharkServersFromZip fetched parse resolve c1 c2).2.1.map
              (fun w => "Surfshark: " ++ w) else []),
          st.printed ++ (if so then
            [stringifySurfsharkServers (findSurfsharkServersFromZip fetched parse resolve c1 c2).1]
            else [])⟩,
         none) := by
      simp only [updateSurfshark, hr]
    refine ⟨by rw [hu], ?_, ?_⟩
    · intro e2 he2
      exact absurd he2 (by simp)
    · intro _
      rw [hu]
      exact ⟨rfl, rfl⟩

/-- C10 witness: a failed fetch leaves the stored record untouched while
still logging the (empty) warning list. -/
theorem c10_update_atomicity_witness :
    (updateSurfshark true false 7 (.error "boom") (fun _ => ⟨"", "", none⟩)
        (fun _ => []) false false ⟨⟨3, []⟩, ["old"], []⟩).1.logged =
      ["old"] ++ (if true then
        (findSurfsharkServersFromZip (.error "boom") (fun _ => ⟨"", "", none⟩)
          (fun _ => []) false false).2.1.map (fun w => "Surfshark: " ++ w) else []) ∧
    (updateSurfshark true false 7 (.error "boom") (fun _ => ⟨"", "", none⟩)
        (fun _ => []) false false ⟨⟨3, []⟩, ["old"], []⟩).2 =
      some ("cannot update Surfshark servers: " ++ "boom") ∧
    (updateSurfshark true false 7 (.error "boom") (fun _ => ⟨"", "", none⟩)
        (fun _ => []) false false ⟨⟨3, []⟩, ["old"], []⟩).1.surfshark = ⟨3, []⟩ := by
  have h := c10_update_atomicity (.error "boom") (fun _ => ⟨"", "", none⟩)
    (fun _ => []) false false true false 7 ⟨⟨3, []⟩, ["old"], []⟩
  exact ⟨h.1, (h.2.1 "boom" (by rfl)).1, (h.2.1 "boom" (by rfl)).2⟩

/-- C1 code-bug demonstration: in the best-effort fallback pass, a
remaining table entry whose host resolves to zero addresses still
produces a Server with an empty IP set (beside the warning), because
`getRemainingServers` lacks the empty-IP guard that the other loops
have. -/
theorem c1_empty_ip_server_emitted :
    getRemainingServers (fun _ => []) false [("al-tia", "Albania")] =
      ([⟨"Albania", []⟩], [noIPWarning "al-tia.prod.surfshark.com"]) := by rfl

/-- C8 counterexample: a run whose best-effort pass is cancelled returns
a successful (error-free) partial server list built from pass 1, instead
of propagating a cancellation error. -/
theorem c8_cancellation_swallowed_counterexample :
    (findSurfsharkServersFromZip (.ok [("a.ovpn", "")]) (fun _ => ⟨"h", "", none⟩)
        (fun _ => [1]) false true).2.2 = none ∧
    (findSurfsharkServersFromZip (.ok [("a.ovpn", "")]) (fun _ => ⟨"h", "", none⟩)
        (fun _ => [1]) false true).1 ≠ [] := by
  constructor
  · rfl
  · decide

/-- C8 amended: a cancellation observed by the strict pass-1 resolution
aborts the run with a cancellation error, but a cancellation observed
only by the best-effort pass-2 resolution is discarded: the run then
reports success and returns exactly the sorted pass-1 servers. -/
theorem c8_amended_cancellation (contents : List (String × String))
    (parse : String → ParseOut) (resolve : String → List Nat) :
    (∀ c2, (findSurfsharkServersFromZip (.ok contents) parse resolve true c2).2.2 =
      some "context canceled") ∧
    ((parallelResolve resolve false (extractZip parse contents).1 true).err = none →
      (findSurfsharkServersFromZip (.ok contents) parse resolve false true).2.2 = none ∧
      (findSurfsharkServersFromZip (.ok contents) parse resolve false true).1 =
        List.insertionSort regionLE
          (reconcileHosts surfsharkSubdomainToRegion
            (parallelResolve resolve false (extractZip parse contents).1 true).hostToIPs).2.1) := by
  constructor
  · intro c2
    simp [findSurfsharkServersFromZip, parallelResolve]
  · intro h
    have hrem : ∀ m, getRemainingServers resolve true m = ([], []) := by
      intro m
      simp [getRemainingServers, parallelResolve]
    constructor
    · simp only [findSurfsharkServersFromZip, h, hrem]
    · simp only [findSurfsharkServersFromZip, h, hrem, List.append_nil]

/-- C8 amended witness: concrete successful pass 1 with cancelled
pass 2. -/
theorem c8_amended_cancellation_witness :
    (findSurfsharkServersFromZip (.ok [("a.ovpn", "")]) (fun _ => ⟨"h", "", none⟩)
        (fun _ => [1]) false true).2.2 = none ∧
    (findSurfsharkServersFromZip (.ok [("a.ovpn", "")]) (fun _ => ⟨"h", "", none⟩)
        (fun _ => [1]) false true).1 =
      List.insertionSort regionLE
        (reconcileHosts surfsharkSubdomainToRegion
          (parallelResolve (fun _ => [1]) false
            (extractZip (fun _ => ⟨"h", "", none⟩) [("a.ovpn", "")]).1 true).hostToIPs).2.1 :=
  (c8_amended_cancellation [("a.ovpn", "")] (fun _ => ⟨"h", "", none⟩) (fun _ => [1])).2 (by rfl)

lemma mlookup_eq_none_iff : ∀ (m : List (String × String)) (k : String),
    mlookup m k = none ↔ k ∉ keysOf m
  | [], k => by simp [mlookup, keysOf]
  | p :: rest, k => by
    by_cases h : p.1 = k
    · simp [mlookup, keysOf, h]
    · simp only [mlookup, keysOf, List.map_cons, List.mem_cons, if_neg h]
      rw [mlookup_eq_none_iff rest k]
      simp only [keysOf]
      constructor
      · intro hn hc
        rcases hc with hc | hc
        · exact h hc.symm
        · exact hn hc
      · intro hn
        exact fun hc => hn (Or.inr hc)

lemma mlookup_mem : ∀ {m : List (String × String)} {k v : String},
    mlookup m k = some v → (k, v) ∈ m := by
  intro m
  induction m with
  | nil => intro k v h; simp [mlookup] at h
  | cons p rest ih =>
    intro k v h
    by_cases hp : p.1 = k
    · rw [mlookup, if_pos hp] at h
      obtain rfl : p.2 = v := Option.some.inj h
      have hkp : (k, p.2) = p := by rw [← hp]
      exact List.mem_cons.mpr (Or.inl hkp)
    · rw [mlookup, if_neg hp] at h
      exact List.mem_cons_of_mem p (ih h)

lemma mlookup_of_mem : ∀ {m : List (String × String)} {k v : String},
    (keysOf m).Nodup → (k, v) ∈ m → mlookup m k = some v := by
  intro m
  induction m with
  | nil => intro k v _ h; simp at h
  | cons p rest ih =>
    intro k v hk hm
    rcases List.mem_cons.mp hm with hm | hm
    · rw [← hm]
      simp [mlookup]
    · have hk2 : (p.1 :: keysOf rest).Nodup := hk
      have hne : p.1 ≠ k := by
        intro he
        have hkr : k ∈ keysOf rest := List.mem_map.mpr ⟨(k, v), hm, rfl⟩
        exact (List.nodup_cons.mp hk2).1 (he ▸ hkr)
      rw [mlookup, if_neg hne]
      exact ih (List.nodup_cons.mp hk2).2 hm

lemma mlookup_isSome_of_mem {m : List (String × String)} {k : String}
    (h : k ∈ keysOf m) : ∃ v, mlookup m k = some v := by
  cases hv : mlookup m k with
  | none => exact absurd h ((mlookup_eq_none_iff m k).mp hv)
  | some v => exact ⟨v, rfl⟩

lemma mdelete_cons (p : String × String) (rest : List (String × String)) (t : String) :
    mdelete (p :: rest) t = if p.1 = t then mdelete rest t else p :: mdelete rest t := by
  by_cases hp : p.1 = t <;> simp [mdelete, List.filter_cons, hp]

lemma mlookup_mdelete : ∀ (m : List (String × String)) {k t : String}, k ≠ t →
    mlookup (mdelete m t) k = mlookup m k
  | [], k, t, _ => rfl
  | p :: rest, k, t, h => by
    rw [mdelete_cons]
    by_cases hp : p.1 = t
    · have hpk : p.1 ≠ k := fun he => h (he ▸ hp)
      rw [if_pos hp, mlookup_mdelete rest h]
      rw [show mlookup (p :: rest) k = mlookup rest k from by rw [mlookup, if_neg hpk]]
    · rw [if_neg hp]
      by_cases hk : p.1 = k
      · simp [mlookup, hk]
      · simp only [mlookup, if_neg hk]
        exact mlookup_mdelete rest h

lemma keysOf_filterKey (P : String → Bool) : ∀ m : List (String × String),
    keysOf (m.filter (fun q => P q.1)) = (keysOf m).filter P
  | [] => rfl
  | p :: rest => by
    by_cases h : P p.1
    · simp only [keysOf, List.filter_cons, h, List.map_cons]
      exact congrArg (p.1 :: ·) (keysOf_filterKey P rest)
    · rw [Bool.not_eq_true] at h
      simp only [keysOf, List.filter_cons, h, List.map_cons]
      exact keysOf_filterKey P rest

lemma valuesOf_inj : ∀ {m : List (String × String)}, (valuesOf m).Nodup →
    ∀ {k1 k2 v : String}, (k1, v) ∈ m → (k2, v) ∈ m → k1 = k2 := by
  intro m
  induction m with
  | nil => intro _ k1 k2 v h; simp at h
  | cons p rest ih =>
    intro hv k1 k2 v h1 h2
    have hv2 : (p.2 :: valuesOf rest).Nodup := hv
    have hvc := List.nodup_cons.mp hv2
    rcases List.mem_cons.mp h1 with h1 | h1 <;> rcases List.mem_cons.mp h2 with h2 | h2
    · rw [← h2] at h1
      exact congrArg Prod.fst h1
    · exact absurd (List.mem_map.mpr ⟨(k2, v), h2, show v = p.2 from congrArg Prod.snd h1⟩) hvc.1
    · exact absurd (List.mem_map.mpr ⟨(k1, v), h1, show v = p.2 from congrArg Prod.snd h2⟩) hvc.1
    · exact ih hvc.2 h1 h2

lemma isPrefixOf_self_append : ∀ l t : List Char, l.isPrefixOf (l ++ t) = true
  | [], _ => by simp [List.isPrefixOf]
  | a :: l, t => by
    simp only [List.cons_append, List.isPrefixOf, beq_self_eq_true, Bool.true_and]
    exact isPrefixOf_self_append l t

lemma strEndsWith_append (a s : String) : strEndsWith (a ++ s) s = true := by
  simp only [strEndsWith, String.data_append, List.isSuffixOf, List.reverse_append]
  exact isPrefixOf_self_append s.data.reverse a.data.reverse

lemma trimSuffix_append (a s : String) : trimSuffix (a ++ s) s = a := by
  simp only [trimSuffix, strEndsWith_append, if_true, String.data_append,
    List.length_append, Nat.add_sub_cancel, List.take_left]

lemma append_surfSuffix_inj : ∀ {a b : String}, a ++ surfSuffix = b ++ surfSuffix → a = b := by
  intro a b h
  have h2 : a.data ++ surfSuffix.data = b.data ++ surfSuffix.data := by
    rw [← String.data_append, ← String.data_append, h]
  have h3 : a.data = b.data := List.append_cancel_right h2
  cases a
  cases b
  exact congrArg String.mk h3

lemma reconcileHosts_cons_empty (m : List (String × String)) (host : String) (I : List Nat)
    (L : List (String × List Nat)) (h : I.isEmpty = true) :
    reconcileHosts m ((host, I) :: L) =
      ((reconcileHosts m L).1, (reconcileHosts m L).2.1,
       noIPWarning host :: (reconcileHosts m L).2.2) := by
  simp [reconcileHosts, h]

lemma reconcileHosts_cons_some (m : List (String × String)) (host : String) (I : List Nat)
    (L : List (String × List Nat)) (region : String) (h : I.isEmpty = false)
    (hl : mlookup m (trimSuffix host surfSuffix) = some region) :
    reconcileHosts m ((host, I) :: L) =
      ((reconcileHosts (mdelete m (trimSuffix host surfSuffix)) L).1,
       ⟨region, uniqueSortedIPs I⟩ ::
         (reconcileHosts (mdelete m (trimSuffix host surfSuffix)) L).2.1,
       (reconcileHosts (mdelete m (trimSuffix host surfSuffix)) L).2.2) := by
  simp [reconcileHosts, h, hl]

lemma keysOf_mdelete (m : List (String × String)) (t : String) :
    keysOf (mdelete m t) = (keysOf m).filter (fun x => decide ¬(x = t)) :=
  keysOf_filterKey (fun x => decide ¬(x = t)) m

lemma reconcileHosts_spec :
    ∀ (L : List (String × List Nat)) (m : List (String × String)),
      (keysOf m).Nodup →
      (∀ p ∈ L, p.2.isEmpty = false → trimSuffix p.1 surfSuffix ∈ keysOf m) →
      (((L.filter (fun p => !p.2.isEmpty)).map (fun p => trimSuffix p.1 surfSuffix)).Nodup) →
      (reconcileHosts m L).1 =
        m.filter (fun q =>
          q.1 ∉ (L.filter (fun p => !p.2.isEmpty)).map (fun p => trimSuffix p.1 surfSuffix)) ∧
      (reconcileHosts m L).2.1.map SurfsharkServer.Region =
        ((L.filter (fun p => !p.2.isEmpty)).map (fun p => trimSuffix p.1 surfSuffix)).map
          (fun t => (mlookup m t).getD "")
  | [], m, hk, _, _ => by
    refine ⟨?_, by simp [reconcileHosts]⟩
    simp only [reconcileHosts, List.filter_nil, List.map_nil]
    rw [eq_comm, List.filter_eq_self]
    intro a _
    simp
  | (host, I) :: L, m, hk, hin, hnd => by
    cases hIe : I.isEmpty with
    | true =>
      have hfeq : (((host, I) :: L).filter (fun p => !p.2.isEmpty)) =
          L.filter (fun p => !p.2.isEmpty) := by
        simp [List.filter_cons, hIe]
      rw [reconcileHosts_cons_empty m host I L hIe, hfeq]
      rw [hfeq] at hnd
      exact reconcileHosts_spec L m hk (fun p hp => hin p (List.mem_cons_of_mem _ hp)) hnd
    | false =>
      have ht : trimSuffix host surfSuffix ∈ keysOf m :=
        hin (host, I) (List.mem_cons_self _ _) hIe
      obtain ⟨v, hv⟩ := mlookup_isSome_of_mem ht
      have hfeq : (((host, I) :: L).filter (fun p => !p.2.isEmpty)) =
          (host, I) :: L.filter (fun p => !p.2.isEmpty) := by
        simp [List.filter_cons, hIe]
      rw [hfeq] at hnd
      simp only [List.map_cons] at hnd
      have htnot : trimSuffix host surfSuffix ∉
          (L.filter (fun p => !p.2.isEmpty)).map (fun p => trimSuffix p.1 surfSuffix) :=
        (List.nodup_cons.mp hnd).1
      have hnd2 := (List.nodup_cons.mp hnd).2
      have hkd : (keysOf (mdelete m (trimSuffix host surfSuffix))).Nodup := by
        rw [keysOf_mdelete]
        exact hk.filter _
      have hind : ∀ p ∈ L, p.2.isEmpty = false →
          trimSuffix p.1 surfSuffix ∈ keysOf (mdelete m (trimSuffix host surfSuffix)) := by
        intro p hp hpe
        rw [keysOf_mdelete]
        refine List.mem_filter.mpr ⟨hin p (List.mem_cons_of_mem _ hp) hpe, ?_⟩
        have hmem : trimSuffix p.1 surfSuffix ∈
            (L.filter (fun q => !q.2.isEmpty)).map (fun q => trimSuffix q.1 surfSuffix) :=
          List.mem_map.mpr ⟨p, List.mem_filter.mpr ⟨hp, by simp [hpe]⟩, rfl⟩
        simp only [decide_eq_true_eq]
        intro he
        exact htnot (he ▸ hmem)
      obtain ⟨ih1, ih2⟩ := reconcileHosts_spec L (mdelete m (trimSuffix host surfSuffix)) hkd hind hnd2
      rw [reconcileHosts_cons_some m host I L v hIe hv, hfeq]
      constructor
      · rw [ih1]
        simp only [mdelete]
        rw [List.filter_filter]
        apply List.filter_congr
        intro a _
        by_cases hat : a.1 = trimSuffix host surfSuffix
        · simp [hat]
        · by_cases ham : a.1 ∈ (L.filter (fun p => !p.2.isEmpty)).map (fun p => trimSuffix p.1 surfSuffix)
          · simp [hat, ham]
          · simp [hat, ham]
      · simp only [List.map_cons, SurfsharkServer.mk.injEq]
        rw [ih2, hv]
        simp only [Option.getD_some]
        refine congrArg (v :: ·) ?_
        apply List.map_congr_left
        intro t htm
        have hne : t ≠ trimSuffix host surfSuffix := fun he => htnot (he ▸ htm)
        rw [mlookup_mdelete m hne]

lemma getRemainingServers_canceled (resolve : String → List Nat) (m : List (String × String)) :
    getRemainingServers resolve true m = ([], []) := by
  simp [getRemainingServers, parallelResolve]

lemma getRemainingServers_regions (resolve : String → List Nat) (m : List (String × String))
    (hk : (keysOf m).Nodup) :
    (getRemainingServers resolve false m).1.map SurfsharkServer.Region = valuesOf m := by
  have hhosts : (m.map (fun p => p.1 ++ surfSuffix)).Nodup := by
    have he : m.map (fun p => p.1 ++ surfSuffix) = (keysOf m).map (fun k => k ++ surfSuffix) := by
      rw [keysOf, List.map_map]
      rfl
    rw [he]
    exact hk.map (fun a b h => append_surfSuffix_inj h)
  simp only [getRemainingServers, parallelResolve, if_false, Bool.false_eq_true]
  rw [List.dedup_eq_self.mpr hhosts]
  simp only [List.map_map]
  apply List.map_congr_left
  intro p hp
  show (mlookup m (trimSuffix (p.1 ++ surfSuffix) surfSuffix)).getD "" = p.2
  rw [trimSuffix_append, mlookup_of_mem hk hp]
  rfl

/-- C2 counterexample: two resolved hosts ("a" and
"a.prod.surfshark.com") both reduce to the unmapped subdomain "a", so
pass 1 emits two fallback Servers with the same region "a"; the final
list therefore contains the same region twice. -/
theorem c2_duplicate_region_counterexample :
    ¬ (((findSurfsharkServersFromZip (.ok [("a.ovpn", "ca"), ("b.ovpn", "cb")])
        (fun c => if c = "ca" then ⟨"a", "", none⟩ else ⟨"a.prod.surfshark.com", "", none⟩)
        (fun _ => [1]) false true).1.map SurfsharkServer.Region).Nodup) := by
  decide

/-- C2 amended: when every resolved pass-1 host has a distinct subdomain
code that is a key of the region table (so no fallback region names
arise), the final server list contains at most one Server per region. -/
theorem c2_amended_unique_regions
    (contents : List (String × String)) (parse : String → ParseOut)
    (resolve : String → List Nat) (c1 c2 : Bool)
    (H1 : (((parallelResolve resolve c1 (extractZip parse contents).1 true).hostToIPs.filter
        (fun p => !p.2.isEmpty)).map (fun p => trimSuffix p.1 surfSuffix)).Nodup)
    (H2 : ∀ p ∈ (parallelResolve resolve c1 (extractZip parse contents).1 true).hostToIPs,
        trimSuffix p.1 surfSuffix ∈ keysOf surfsharkSubdomainToRegion) :
    ((findSurfsharkServersFromZip (.ok contents) parse resolve c1 c2).1.map
        SurfsharkServer.Region).Nodup := by
  simp only [findSurfsharkServersFromZip]
  cases herr : (parallelResolve resolve c1 (extractZip parse contents).1 true).err with
  | some e => simp
  | none =>
    show ((List.insertionSort regionLE
        ((reconcileHosts surfsharkSubdomainToRegion
          (parallelResolve resolve c1 (extractZip parse contents).1 true).hostToIPs).2.1 ++
         (getRemainingServers resolve c2
           (reconcileHosts surfsharkSubdomainToRegion
             (parallelResolve resolve c1 (extractZip parse contents).1 true).hostToIPs).1).1)).map
        SurfsharkServer.Region).Nodup
    obtain ⟨hm2, hreg1⟩ := reconcileHosts_spec
      (parallelResolve resolve c1 (extractZip parse contents).1 true).hostToIPs
      surfsharkSubdomainToRegion table_keys_nodup (fun p hp _ => H2 p hp) H1
    set L := (parallelResolve resolve c1 (extractZip parse contents).1 true).hostToIPs with hLdef
    set tr := (L.filter (fun p => !p.2.isEmpty)).map (fun p => trimSuffix p.1 surfSuffix)
      with htrdef
    have htrimkeys : ∀ t ∈ tr, t ∈ keysOf surfsharkSubdomainToRegion := by
      intro t ht
      rcases List.mem_map.mp ht with ⟨p, hp, rfl⟩
      exact H2 p (List.mem_of_mem_filter hp)
    rw [List.Perm.nodup_iff ((List.perm_insertionSort regionLE _).map SurfsharkServer.Region)]
    rw [List.map_append, hreg1, hm2]
    have hA : (tr.map (fun t => (mlookup surfsharkSubdomainToRegion t).getD "")).Nodup := by
      refine List.Nodup.map_on ?_ H1
      intro t1 ht1 t2 ht2 hf
      obtain ⟨v1, hv1⟩ := mlookup_isSome_of_mem (htrimkeys t1 ht1)
      obtain ⟨v2, hv2⟩ := mlookup_isSome_of_mem (htrimkeys t2 ht2)
      rw [hv1, hv2] at hf
      simp only [Option.getD_some] at hf
      exact valuesOf_inj table_values_nodup (mlookup_mem hv1) (hf.symm ▸ mlookup_mem hv2)
    cases c2 with
    | true =>
      have he : (getRemainingServers resolve true
          (surfsharkSubdomainToRegion.filter (fun q => q.1 ∉ tr))).1 = [] := by
        rw [getRemainingServers_canceled]
      rw [he]
      simp only [List.map_nil, List.append_nil]
      exact hA
    | false =>
      have hkeq := keysOf_filterKey (fun x => decide (x ∉ tr)) surfsharkSubdomainToRegion
      have hk2 : (keysOf (surfsharkSubdomainToRegion.filter (fun q => q.1 ∉ tr))).Nodup := by
        rw [hkeq]
        exact table_keys_nodup.filter _
      rw [getRemainingServers_regions resolve _ hk2]
      refine List.nodup_append.mpr ⟨hA, ?_, ?_⟩
      · exact table_values_nodup.sublist ((List.filter_sublist _).map _)
      · intro v hvA hvB
        rcases List.mem_map.mp hvA with ⟨t, htm, rfl⟩
        rcases List.mem_map.mp hvB with ⟨q, hq, hqv⟩
        obtain ⟨v1, hv1⟩ := mlookup_isSome_of_mem (htrimkeys t htm)
        rw [hv1] at hqv
        simp only [Option.getD_some] at hqv
        have hq1 : q ∈ surfsharkSubdomainToRegion := List.mem_of_mem_filter hq
        have hq2 : q.1 ∉ tr := by
          have := (List.mem_filter.mp hq).2
          simpa using this
        have hqm : (q.1, v1) ∈ surfsharkSubdomainToRegion := by
          rw [← hqv]
          exact hq1
        have hteq : t = q.1 := valuesOf_inj table_values_nodup (mlookup_mem hv1) hqm
        exact hq2 (hteq ▸ htm)

/-- C2 amended witness: one archive host matching a table key. -/
theorem c2_amended_unique_regions_witness :
    ((findSurfsharkServersFromZip (.ok [("a.ovpn", "")])
        (fun _ => ⟨"al-tia.prod.surfshark.com", "", none⟩) (fun _ => [1]) false true).1.map
        SurfsharkServer.Region).Nodup :=
  c2_amended_unique_regions [("a.ovpn", "")] (fun _ => ⟨"al-tia.prod.surfshark.com", "", none⟩)
    (fun _ => [1]) false true (by decide) (by decide)
